import Mathlib

/-!
Shallow embedding of the ChadPerkins/Vulkan-Getting-Started renderer
(src/vk_engine.h, src/vk_engine.cpp) together with proofs of the
specification's testable properties.

Machine integers of the C++ source are modelled as `Nat` with explicit
`% 2 ^ 64` (size_t) or `% 2 ^ 32` (uint32_t) where overflow can matter.
GPU handles and pointers are modelled as `Nat` identities; opaque
collaborators (filesystem, device entry points) are parameters.
-/

/-- `FRAME_OVERLAP` from vk_engine.h line 15: `constexpr unsigned int FRAME_OVERLAP = 2`. -/
def FRAME_OVERLAP : Nat := 2

/- ## Deletion queue (vk_engine.h lines 73-89)

`deletors` is a `std::deque<std::function<void()>>`; the stored closures are
modelled as abstract tokens of a type `α`. -/

/-- State of a `DeletionQueue`: the pending teardown actions in insertion order. -/
structure DeletionQueue (α : Type) where
  deletors : List α

/-- `push_function`: `deletors.push_back(function)` appends at the back. -/
def DeletionQueue.push_function {α : Type} (q : DeletionQueue α) (f : α) : DeletionQueue α :=
  { deletors := q.deletors ++ [f] }

/-- `flush`: iterates `deletors` from `rbegin()` to `rend()` calling each entry, then
calls `deletors.clear()`.  The result is the pair of (sequence of actions executed,
in execution order) and the queue state after the flush. -/
def DeletionQueue.flush {α : Type} (q : DeletionQueue α) : List α × DeletionQueue α :=
  (q.deletors.reverse, { deletors := [] })

/-- Pushing a whole list of actions one by one (N calls to `push_function`). -/
def DeletionQueue.pushAll {α : Type} (q : DeletionQueue α) (fs : List α) : DeletionQueue α :=
  fs.foldl DeletionQueue.push_function q

theorem DeletionQueue.pushAll_deletors {α : Type} (fs : List α) (q : DeletionQueue α) :
    (q.pushAll fs).deletors = q.deletors ++ fs := by
  induction fs generalizing q with
  | nil => simp [DeletionQueue.pushAll]
  | cons f rest ih =>
    simp [DeletionQueue.pushAll, DeletionQueue.push_function] at ih ⊢
    rw [ih]
    simp

/-- C1: pushing any sequence of N ≥ 1 teardown actions into an empty `DeletionQueue`
via `push_function` and then calling `flush` executes the actions in exactly the
reverse of insertion order, and leaves the queue empty afterwards. -/
theorem deletionQueue_flush_lifo {α : Type} (fs : List α) (hN : 1 ≤ fs.length) :
    (DeletionQueue.pushAll { deletors := [] } fs).flush
      = (fs.reverse, ({ deletors := [] } : DeletionQueue α)) := by
  unfold DeletionQueue.flush
  rw [DeletionQueue.pushAll_deletors]
  simp

/-- C1 witness: three concrete actions 0, 1, 2 flush in order 2, 1, 0. -/
theorem deletionQueue_flush_lifo_witness :
    1 ≤ ([0, 1, 2] : List Nat).length
    ∧ (DeletionQueue.pushAll { deletors := [] } ([0, 1, 2] : List Nat)).flush
        = (([0, 1, 2] : List Nat).reverse, ({ deletors := [] } : DeletionQueue Nat)) :=
  ⟨by decide, deletionQueue_flush_lifo [0, 1, 2] (by decide)⟩

/- ## Frame slot selection (vk_engine.cpp lines 900-903) -/

/-- `get_current_frame` returns `_frames[_frameNumber % FRAME_OVERLAP]`; we model the
selected slot index.  `_frameNumber` only counts up from 0, so it is a `Nat`. -/
def get_current_frame_slot (frameNumber : Nat) : Nat :=
  frameNumber % FRAME_OVERLAP

/-- C5: frame-slot selection is periodic with period N = FRAME_OVERLAP = 2: the slot
selected for frame k + N equals the slot for frame k, and the slot index is k mod N. -/
theorem frame_slot_selection_periodic (k : Nat) :
    get_current_frame_slot (k + FRAME_OVERLAP) = get_current_frame_slot k
    ∧ get_current_frame_slot k = k % FRAME_OVERLAP := by
  constructor
  · unfold get_current_frame_slot
    exact Nat.add_mod_right k FRAME_OVERLAP
  · rfl

/- ## Uniform buffer padding (vk_engine.cpp lines 1062-1071)

```
size_t minUboAlignment = _gpuProperties.limits.minUniformBufferOffsetAlignment;
size_t alignedSize = originalSize;
if (minUboAlignment > 0) {
    alignedSize = (alignedSize + minUboAlignment - 1) & ~(minUboAlignment - 1);
}
return alignedSize;
```

All arithmetic is on 64-bit `size_t`, so the sum is reduced `% 2 ^ 64` and the
bitwise complement `~(minUboAlignment - 1)` is `(2 ^ 64 - 1) ^^^ (minUboAlignment - 1)`. -/

/-- `VulkanEngine::pad_uniform_buffer_size`, as a function of the device-reported
minimum uniform-buffer offset alignment and the requested size (both `size_t`). -/
def pad_uniform_buffer_size (minUboAlignment originalSize : Nat) : Nat :=
  if 0 < minUboAlignment then
    ((originalSize + minUboAlignment - 1) % 2 ^ 64) &&& ((2 ^ 64 - 1) ^^^ (minUboAlignment - 1))
  else
    originalSize

/-- Masking a `w`-bit value with the complement of `2 ^ k - 1` rounds it down to a
multiple of `2 ^ k`. -/
theorem land_complement_mask (w k x : Nat) (hk : k ≤ w) (hx : x < 2 ^ w) :
    x &&& ((2 ^ w - 1) ^^^ (2 ^ k - 1)) = x / 2 ^ k * 2 ^ k := by
  have hdiv : x / 2 ^ k * 2 ^ k = (x >>> k) <<< k := by
    rw [Nat.shiftLeft_eq, Nat.shiftRight_eq_div_pow]
  rw [hdiv]
  apply Nat.eq_of_testBit_eq
  intro i
  rw [Nat.testBit_land, Nat.testBit_xor, Nat.testBit_two_pow_sub_one,
    Nat.testBit_two_pow_sub_one, Nat.testBit_shiftLeft, Nat.testBit_shiftRight]
  by_cases h1 : i < k
  · have h2 : i < w := lt_of_lt_of_le h1 hk
    simp [h1, h2, Nat.not_le.mpr h1]
  · push_neg at h1
    have h4 : k + (i - k) = i := by omega
    by_cases h2 : i < w
    · simp [h2, Nat.not_lt.mpr h1, h1, h4]
    · push_neg at h2
      have h5 : x.testBit i = false :=
        Nat.testBit_lt_two_pow (lt_of_lt_of_le hx (Nat.pow_le_pow_right (by norm_num) h2))
      simp [Nat.not_lt.mpr h2, Nat.not_lt.mpr (le_trans hk h2), h1, h4, h5]

/-- On power-of-two alignments without `size_t` overflow, the padding function is
round-up-to-multiple: `pad(2 ^ k, s) = ((s + 2 ^ k - 1) / 2 ^ k) * 2 ^ k`. -/
theorem pad_uniform_buffer_size_pow2 (k s : Nat) (hk : k ≤ 64)
    (hs : s + 2 ^ k - 1 < 2 ^ 64) :
    pad_uniform_buffer_size (2 ^ k) s = (s + 2 ^ k - 1) / 2 ^ k * 2 ^ k := by
  have hA : 0 < (2 : Nat) ^ k := Nat.two_pow_pos k
  unfold pad_uniform_buffer_size
  rw [if_pos hA, Nat.mod_eq_of_lt hs]
  exact land_complement_mask 64 k (s + 2 ^ k - 1) hk hs

theorem le_roundup_aux (t r s a : Nat) (h1 : t + r = s + a - 1) (h2 : r < a)
    (h3 : 0 < a) : s ≤ t := by
  omega

/-- Rounding up to a multiple of a positive `a` never shrinks the value. -/
theorem le_roundup (a s : Nat) (ha : 0 < a) : s ≤ (s + a - 1) / a * a := by
  have hd : a * ((s + a - 1) / a) + (s + a - 1) % a = s + a - 1 :=
    Nat.div_add_mod (s + a - 1) a
  have hm : (s + a - 1) % a < a := Nat.mod_lt (s + a - 1) ha
  have h := le_roundup_aux (a * ((s + a - 1) / a)) ((s + a - 1) % a) s a hd hm ha
  exact h.trans_eq (Nat.mul_comm a ((s + a - 1) / a))

/-- Rounding up a value that is already a multiple of `a` is the identity. -/
theorem roundup_mul_self (a q : Nat) (ha : 0 < a) : (q * a + a - 1) / a * a = q * a := by
  have h1 : q * a + a - 1 = a * q + (a - 1) := by
    rw [Nat.mul_comm a q, Nat.add_sub_assoc ha (q * a)]
  rw [h1, Nat.mul_add_div ha, Nat.div_eq_of_lt (by omega), Nat.add_zero]

/-- An already-aligned value stays below `B * a` with room for the `+ a - 1` bias. -/
theorem roundup_succ_lt (a B s : Nat) (ha : 0 < a) (hs : s + a - 1 < B * a) :
    (s + a - 1) / a * a + a - 1 < B * a := by
  have hqA : (s + a - 1) / a * a ≤ s + a - 1 := Nat.div_mul_le_self (s + a - 1) a
  have hqB : (s + a - 1) / a < B :=
    lt_of_mul_lt_mul_right (lt_of_le_of_lt hqA hs) (Nat.zero_le a)
  have h3 : ((s + a - 1) / a + 1) * a ≤ B * a :=
    mul_le_mul_right' (Nat.succ_le_of_lt hqB) a
  have h4 : (s + a - 1) / a * a + a = ((s + a - 1) / a + 1) * a := by ring
  have h5 : (s + a - 1) / a * a + a ≤ B * a := h4 ▸ h3
  have h6 : (s + a - 1) / a * a + a - 1 < (s + a - 1) / a * a + a :=
    Nat.sub_lt (Nat.add_pos_right ((s + a - 1) / a * a) ha) Nat.one_pos
  exact lt_of_lt_of_le h6 h5

/-- C3: `pad_uniform_buffer_size` is idempotent and inflationary for power-of-two
alignments without `size_t` overflow, is the identity when the device reports
alignment 0, and maps (alignment 256) 104 to 256, 256 to 256, and 257 to 512. -/
theorem pad_uniform_buffer_size_spec (k s : Nat) (hk : k < 64)
    (hs : s + 2 ^ k - 1 < 2 ^ 64) :
    pad_uniform_buffer_size (2 ^ k) (pad_uniform_buffer_size (2 ^ k) s)
      = pad_uniform_buffer_size (2 ^ k) s
    ∧ s ≤ pad_uniform_buffer_size (2 ^ k) s
    ∧ (∀ t : Nat, pad_uniform_buffer_size 0 t = t)
    ∧ pad_uniform_buffer_size 256 104 = 256
    ∧ pad_uniform_buffer_size 256 256 = 256
    ∧ pad_uniform_buffer_size 256 257 = 512 := by
  have hA : 0 < (2 : Nat) ^ k := Nat.two_pow_pos k
  have h1 : pad_uniform_buffer_size (2 ^ k) s = (s + 2 ^ k - 1) / 2 ^ k * 2 ^ k :=
    pad_uniform_buffer_size_pow2 k s hk.le hs
  refine ⟨?_, ?_, fun t => by simp [pad_uniform_buffer_size], by decide, by decide, by decide⟩
  · have h64 : (2 : Nat) ^ 64 = 2 ^ (64 - k) * 2 ^ k := by
      rw [← pow_add]
      congr 1
      omega
    have hs2 : (s + 2 ^ k - 1) / 2 ^ k * 2 ^ k + 2 ^ k - 1 < 2 ^ 64 := by
      rw [h64]
      exact roundup_succ_lt (2 ^ k) (2 ^ (64 - k)) s hA (h64 ▸ hs)
    rw [h1, pad_uniform_buffer_size_pow2 k _ hk.le hs2,
      roundup_mul_self (2 ^ k) ((s + 2 ^ k - 1) / 2 ^ k) hA]
  · rw [h1]
    exact le_roundup (2 ^ k) s hA

/-- C3 witness: alignment 2 ^ 8 = 256 and size 104 satisfy the hypotheses. -/
theorem pad_uniform_buffer_size_spec_witness :
    (8 < 64 ∧ 104 + 2 ^ 8 - 1 < 2 ^ 64)
    ∧ (pad_uniform_buffer_size (2 ^ 8) (pad_uniform_buffer_size (2 ^ 8) 104)
        = pad_uniform_buffer_size (2 ^ 8) 104
      ∧ 104 ≤ pad_uniform_buffer_size (2 ^ 8) 104
      ∧ (∀ t : Nat, pad_uniform_buffer_size 0 t = t)
      ∧ pad_uniform_buffer_size 256 104 = 256
      ∧ pad_uniform_buffer_size 256 256 = 256
      ∧ pad_uniform_buffer_size 256 257 = 512) :=
  ⟨⟨by decide, by decide⟩, pad_uniform_buffer_size_spec 8 104 (by decide) (by decide)⟩

/- ## Scene-buffer dynamic offsets (vk_engine.cpp lines 829-869 and 977-979) -/

/-- `sizeof(GPUSceneData)`: five `glm::vec4` members of 16 bytes each
(vk_engine.h lines 22-28). -/
def sizeofGPUSceneData : Nat := 80

/-- `int frameIndex = _frameNumber % FRAME_OVERLAP` (vk_engine.cpp line 832). -/
def frameIndex (frameNumber : Nat) : Nat :=
  frameNumber % FRAME_OVERLAP

/-- Offset (in bytes, `size_t` pointer arithmetic) at which `draw_objects` writes the
scene data for the current frame:
`sceneData += pad_uniform_buffer_size(sizeof(GPUSceneData)) * frameIndex`
(vk_engine.cpp line 834). -/
def scene_write_offset (minUboAlignment frameNumber : Nat) : Nat :=
  pad_uniform_buffer_size minUboAlignment sizeofGPUSceneData * frameIndex frameNumber

/-- `uint32_t uniform_offset = pad_uniform_buffer_size(sizeof(GPUSceneData)) * frameIndex`
(vk_engine.cpp line 868), the dynamic offset supplied to `vkCmdBindDescriptorSets`;
the product is truncated to `uint32_t`. -/
def scene_bind_offset (minUboAlignment frameNumber : Nat) : Nat :=
  pad_uniform_buffer_size minUboAlignment sizeofGPUSceneData * frameIndex frameNumber % 2 ^ 32

/-- `const size_t sceneParamBufferSize = FRAME_OVERLAP * pad_uniform_buffer_size(sizeof(GPUSceneData))`
(vk_engine.cpp line 977), the allocation size of `_sceneParameterBuffer`. -/
def sceneParamBufferSize (minUboAlignment : Nat) : Nat :=
  FRAME_OVERLAP * pad_uniform_buffer_size minUboAlignment sizeofGPUSceneData

/-- C2: for every frame index i below FRAME_OVERLAP (so `frameIndex i = i`), the write
offset and the bind-time dynamic offset both equal
`i * pad_uniform_buffer_size(sizeof(GPUSceneData))`, this offset never exceeds
`(FRAME_OVERLAP - 1)` times the padded stride, and the scene buffer is allocated with
size exactly `FRAME_OVERLAP` times the padded stride.  The truncation hypothesis
reflects the `uint32_t` cast at the bind site. -/
theorem scene_dynamic_offset_correct (a i : Nat) (hi : i < FRAME_OVERLAP)
    (htrunc : pad_uniform_buffer_size a sizeofGPUSceneData * i < 2 ^ 32) :
    scene_write_offset a i = i * pad_uniform_buffer_size a sizeofGPUSceneData
    ∧ scene_bind_offset a i = i * pad_uniform_buffer_size a sizeofGPUSceneData
    ∧ i * pad_uniform_buffer_size a sizeofGPUSceneData
        ≤ (FRAME_OVERLAP - 1) * pad_uniform_buffer_size a sizeofGPUSceneData
    ∧ sceneParamBufferSize a = FRAME_OVERLAP * pad_uniform_buffer_size a sizeofGPUSceneData := by
  have hfi : frameIndex i = i := Nat.mod_eq_of_lt hi
  refine ⟨?_, ?_, ?_, rfl⟩
  · rw [scene_write_offset, hfi, Nat.mul_comm]
  · rw [scene_bind_offset, hfi, Nat.mod_eq_of_lt htrunc, Nat.mul_comm]
  · exact mul_le_mul_right' (by omega) (pad_uniform_buffer_size a sizeofGPUSceneData)

/-- C2 witness: alignment 256, frame index 1. -/
theorem scene_dynamic_offset_correct_witness :
    (1 < FRAME_OVERLAP ∧ pad_uniform_buffer_size 256 sizeofGPUSceneData * 1 < 2 ^ 32)
    ∧ (scene_write_offset 256 1 = 1 * pad_uniform_buffer_size 256 sizeofGPUSceneData
      ∧ scene_bind_offset 256 1 = 1 * pad_uniform_buffer_size 256 sizeofGPUSceneData
      ∧ 1 * pad_uniform_buffer_size 256 sizeofGPUSceneData
          ≤ (FRAME_OVERLAP - 1) * pad_uniform_buffer_size 256 sizeofGPUSceneData
      ∧ sceneParamBufferSize 256
          = FRAME_OVERLAP * pad_uniform_buffer_size 256 sizeofGPUSceneData) :=
  ⟨⟨by decide, by decide⟩, scene_dynamic_offset_correct 256 1 (by decide) (by decide)⟩

/- ## Orderly shutdown (VulkanEngine::cleanup, vk_engine.cpp lines 83-101)

The body, guarded by `_isInitialized`, is:
```
vkWaitForFences(_device, 1, &get_current_frame()._renderFence, true, 1000000000);
_mainDeletionQueue.flush();
vkb::destroy_debug_utils_messenger(...); vkDestroySurfaceKHR(...);
vkDestroyDevice(...); vkDestroyInstance(...); SDL_DestroyWindow(...);
```
We model the observable event trace.  The `deviceWaitIdle` constructor stands for a
`vkDeviceWaitIdle` call; the source contains no such call, so `cleanup` never emits
it — it exists so that the claimed full-device wait is expressible. -/

inductive CleanupEvent where
  | waitFence (slot : Nat)
  | deviceWaitIdle
  | flushDelete (tag : Nat)
  | destroyDebugMessenger
  | destroySurface
  | destroyDevice
  | destroyInstance
  | destroyWindow
deriving DecidableEq

/-- Event trace of `VulkanEngine::cleanup`: one wait on the current frame slot's
render fence, then the deletion-queue flush (reverse insertion order), then the
remaining explicit destructions. -/
def cleanup (isInitialized : Bool) (frameNumber : Nat) (deletors : List Nat) :
    List CleanupEvent :=
  if isInitialized then
    CleanupEvent.waitFence (frameNumber % FRAME_OVERLAP)
      :: (deletors.reverse.map CleanupEvent.flushDelete
        ++ [CleanupEvent.destroyDebugMessenger, CleanupEvent.destroySurface,
            CleanupEvent.destroyDevice, CleanupEvent.destroyInstance,
            CleanupEvent.destroyWindow])
  else []

/-- The claim of C6, over an event trace: before every deletion-queue destruction,
either an explicit full-device idle wait has happened, or the render fences of all
FRAME_OVERLAP frame slots (i.e. all in-flight GPU work) have been waited on. -/
def fullDeviceIdleBeforeFlush (tr : List CleanupEvent) : Prop :=
  ∀ pre post d, tr = pre ++ CleanupEvent.flushDelete d :: post →
    (CleanupEvent.deviceWaitIdle ∈ pre
      ∨ ∀ s, s < FRAME_OVERLAP → CleanupEvent.waitFence s ∈ pre)

/-- C6 counterexample: at shutdown after frame 0 with a single queued teardown
action, cleanup waits only on frame slot 0's fence; slot 1's fence is never waited
on and no device-wide idle wait occurs before the destruction executes. -/
theorem cleanup_full_device_wait_cex :
    ¬ fullDeviceIdleBeforeFlush (cleanup true 0 [0]) := by
  intro h
  have hsplit : cleanup true 0 [0]
      = [CleanupEvent.waitFence 0] ++ CleanupEvent.flushDelete 0
        :: [CleanupEvent.destroyDebugMessenger, CleanupEvent.destroySurface,
            CleanupEvent.destroyDevice, CleanupEvent.destroyInstance,
            CleanupEvent.destroyWindow] := rfl
  rcases h _ _ 0 hsplit with h2 | h2
  · simp at h2
  · have h3 := h2 1 (by decide)
    simp at h3

/-- C6 amended: at orderly shutdown (`_isInitialized` true), a wait on the *current
frame slot's* render fence (slot `frameNumber % FRAME_OVERLAP`) — not a full-device
idle wait — completes before any destruction action from the Deletion Queue executes. -/
theorem cleanup_waits_current_frame_fence_before_destroy
    (frameNumber : Nat) (deletors : List Nat) (pre post : List CleanupEvent) (d : Nat)
    (h : cleanup true frameNumber deletors = pre ++ CleanupEvent.flushDelete d :: post) :
    CleanupEvent.waitFence (frameNumber % FRAME_OVERLAP) ∈ pre := by
  cases pre with
  | nil =>
    simp [cleanup] at h
  | cons e rest =>
    rw [List.cons_append] at h
    simp only [cleanup, if_true, List.cons.injEq] at h
    rw [← h.1]
    exact List.mem_cons_self _ _

/-- C6 amended witness: shutdown after frame 0 with one queued action. -/
theorem cleanup_waits_current_frame_fence_before_destroy_witness :
    (cleanup true 0 [0]
      = [CleanupEvent.waitFence 0] ++ CleanupEvent.flushDelete 0
        :: [CleanupEvent.destroyDebugMessenger, CleanupEvent.destroySurface,
            CleanupEvent.destroyDevice, CleanupEvent.destroyInstance,
            CleanupEvent.destroyWindow])
    ∧ CleanupEvent.waitFence (0 % FRAME_OVERLAP) ∈ [CleanupEvent.waitFence 0] :=
  ⟨rfl, cleanup_waits_current_frame_fence_before_destroy 0 [0] _ _ 0 rfl⟩

/- ## Mesh uploads during initialization (vk_engine.cpp lines 34-81, 705-766) -/

/-- The two meshes registered in the mesh registry by `load_meshes`. -/
inductive MeshName where
  | monkey
  | triangle
deriving DecidableEq

/-- `load_meshes` calls `upload_meshes(_monkeyMesh)` then `upload_meshes(_triangleMesh)`
(vk_engine.cpp lines 726-727); each call creates a fresh GPU vertex buffer and copies
the vertex data into it. -/
def load_meshes_uploads : List MeshName :=
  [MeshName.monkey, MeshName.triangle]

/-- `VulkanEngine::init` calls `load_meshes()` twice, at lines 73 and 77 of
vk_engine.cpp; this is the per-mesh upload trace of one `init()` run. -/
def init_mesh_uploads : List MeshName :=
  load_meshes_uploads ++ load_meshes_uploads

/-- C7 evaluation: during a single `init()`, each registered mesh's GPU vertex buffer
is created and its data uploaded twice, not exactly once as the claim states. -/
theorem init_uploads_each_mesh_twice :
    init_mesh_uploads.count MeshName.monkey = 2
    ∧ init_mesh_uploads.count MeshName.triangle = 2
    ∧ ¬ init_mesh_uploads.count MeshName.monkey = 1 := by
  decide

/- ## Shader module loading (VulkanEngine::load_shader_module, vk_engine.cpp 661-703)

The filesystem and the device are opaque collaborators:
`fs` maps a file path to its byte contents when the file can be opened, and
`create` models `vkCreateShaderModule`, returning the new handle on `VK_SUCCESS`
and `none` otherwise.  The source builds a `std::vector<uint32_t>` of
`fileSize / 4` words and passes `codeSize = fileSize / 4 * 4` bytes, so `create`
receives the first `fileSize / 4 * 4` bytes of the file.  `outShaderModule`
models the caller's shader-module variable (possibly uninitialized, hence
`Option`). -/

/-- Result of a routine that could in principle abort the process (the engine's
`VK_CHECK` macro calls `abort()` on any Vulkan error); `load_shader_module` contains
no `VK_CHECK`, which the theorems below make explicit. -/
inductive ProcResult (α : Type) where
  | ok (val : α)
  | aborted
deriving DecidableEq

/-- `VulkanEngine::load_shader_module`.  Returns the C++ `bool` result together with
the contents of the caller's `outShaderModule` variable after the call. -/
def load_shader_module (fs : String → Option (List UInt8))
    (create : List UInt8 → Option Nat) (filepath : String)
    (outShaderModule : Option Nat) : ProcResult (Bool × Option Nat) :=
  match fs filepath with
  | none => ProcResult.ok (false, outShaderModule)
  | some bytes =>
    let buffer := bytes.take (bytes.length / 4 * 4)
    match create buffer with
    | none => ProcResult.ok (false, outShaderModule)
    | some shaderModule => ProcResult.ok (true, some shaderModule)

/-- C8: `load_shader_module` returns false (a reported, non-aborting failure) when
the file cannot be opened or shader-module creation fails, returns true with the
created handle written to the out parameter otherwise, and never aborts the process. -/
theorem load_shader_module_reports_failure (fs : String → Option (List UInt8))
    (create : List UInt8 → Option Nat) (filepath : String) (out0 : Option Nat) :
    (fs filepath = none →
      load_shader_module fs create filepath out0 = ProcResult.ok (false, out0))
    ∧ (∀ bytes, fs filepath = some bytes →
        create (bytes.take (bytes.length / 4 * 4)) = none →
        load_shader_module fs create filepath out0 = ProcResult.ok (false, out0))
    ∧ (∀ bytes m, fs filepath = some bytes →
        create (bytes.take (bytes.length / 4 * 4)) = some m →
        load_shader_module fs create filepath out0 = ProcResult.ok (true, some m))
    ∧ load_shader_module fs create filepath out0 ≠ ProcResult.aborted := by
  refine ⟨?_, ?_, ?_, ?_⟩
  · intro h
    simp [load_shader_module, h]
  · intro bytes h1 h2
    simp [load_shader_module, h1, h2]
  · intro bytes m h1 h2
    simp [load_shader_module, h1, h2]
  · cases h1 : fs filepath with
    | none => simp [load_shader_module, h1]
    | some bytes =>
      cases h2 : create (bytes.take (bytes.length / 4 * 4)) with
      | none => simp [load_shader_module, h1, h2]
      | some m => simp [load_shader_module, h1, h2]

/-- C8 witness: with an unopenable file the call reports failure without aborting. -/
theorem load_shader_module_reports_failure_witness :
    ((fun _ : String => (none : Option (List UInt8))) "shader.spv" = none)
    ∧ load_shader_module (fun _ => none) (fun _ => none) "shader.spv" none
        = ProcResult.ok (false, none) :=
  ⟨rfl,
    (load_shader_module_reports_failure (fun _ => none) (fun _ => none)
      "shader.spv" none).1 rfl⟩

/-- C10: on every failure path of `load_shader_module` the out parameter is left
unwritten — whatever the caller's variable held before the call, it still holds. -/
theorem load_shader_module_out_unchanged_on_failure (fs : String → Option (List UInt8))
    (create : List UInt8 → Option Nat) (filepath : String) (out0 o : Option Nat)
    (h : load_shader_module fs create filepath out0 = ProcResult.ok (false, o)) :
    o = out0 := by
  cases h1 : fs filepath with
  | none =>
    simp [load_shader_module, h1] at h
    exact h.symm
  | some bytes =>
    cases h2 : create (bytes.take (bytes.length / 4 * 4)) with
    | none =>
      simp [load_shader_module, h1, h2] at h
      exact h.symm
    | some m =>
      simp [load_shader_module, h1, h2] at h

/-- C10 witness: a failing load leaves a previously-stored handle 7 in place. -/
theorem load_shader_module_out_unchanged_on_failure_witness :
    (load_shader_module (fun _ => none) (fun _ => none) "shader.spv" (some 7)
      = ProcResult.ok (false, some 7))
    ∧ (some 7 : Option Nat) = some 7 :=
  ⟨rfl,
    load_shader_module_out_unchanged_on_failure (fun _ => none) (fun _ => none)
      "shader.spv" (some 7) (some 7) rfl⟩

/- ## Material and mesh registries (vk_engine.cpp lines 768-799)

`_materials` and `_meshes` are `std::unordered_map<std::string, _>`; we model each
as an association list whose keys are distinct (the map invariant).  `get_material`
and `get_mesh` call `find` and return `nullptr` — here `none` — when the key is
absent, and a pointer to the stored mapped value — here `some` of it — otherwise. -/

/-- `Material` (vk_engine.h lines 54-57): pipeline and pipeline-layout handles. -/
structure Material where
  pipeline : Nat
  pipelineLayout : Nat
deriving DecidableEq

/-- `Mesh` (vk_mesh.h, used via vk_engine.h): vertex array (abstracted to its
length) and the GPU vertex-buffer handle. -/
structure Mesh where
  vertexCount : Nat
  vertexBuffer : Nat
deriving DecidableEq

/-- `unordered_map::find` on an association list. -/
def mapFind {α : Type} (entries : List (String × α)) (name : String) : Option α :=
  match entries with
  | [] => none
  | (k, v) :: rest => if k = name then some v else mapFind rest name

/-- `VulkanEngine::get_material`. -/
def get_material (materials : List (String × Material)) (name : String) : Option Material :=
  mapFind materials name

/-- `VulkanEngine::get_mesh`. -/
def get_mesh (meshes : List (String × Mesh)) (name : String) : Option Mesh :=
  mapFind meshes name

theorem mapFind_eq_none {α : Type} (entries : List (String × α)) (name : String)
    (h : ∀ v, (name, v) ∉ entries) : mapFind entries name = none := by
  induction entries with
  | nil => rfl
  | cons e rest ih =>
    obtain ⟨k, v⟩ := e
    by_cases hk : k = name
    · subst hk
      exact absurd (List.mem_cons_self _ _) (h v)
    · simp only [mapFind, if_neg hk]
      exact ih fun w hw => h w (List.mem_cons_of_mem _ hw)

theorem mapFind_eq_some {α : Type} (entries : List (String × α)) (name : String)
    (v : α) (hnd : (entries.map Prod.fst).Nodup) (h : (name, v) ∈ entries) :
    mapFind entries name = some v := by
  induction entries with
  | nil => simp at h
  | cons e rest ih =>
    obtain ⟨k, w⟩ := e
    rcases List.mem_cons.mp h with heq | hmem
    · injection heq with h1 h2
      subst h1
      subst h2
      simp [mapFind]
    · have hnd1 : (k :: rest.map Prod.fst).Nodup := by
        simpa only [List.map_cons] using hnd
      have hpair := List.nodup_cons.mp hnd1
      have hk : ¬ k = name := by
        intro hkn
        subst hkn
        exact hpair.1 (List.mem_map.mpr ⟨(k, v), hmem, rfl⟩)
      simp only [mapFind, if_neg hk]
      exact ih hpair.2 hmem

/-- C9: for every key absent from the corresponding registry, `get_material` and
`get_mesh` return the not-found sentinel `none` (a null pointer in the source),
without any exception or abort; for every key present they return the stored entry. -/
theorem registry_lookup_sentinel (materials : List (String × Material))
    (meshes : List (String × Mesh)) (name : String)
    (hmat : (materials.map Prod.fst).Nodup) (hmesh : (meshes.map Prod.fst).Nodup) :
    ((∀ v, (name, v) ∉ materials) → get_material materials name = none)
    ∧ (∀ v, (name, v) ∈ materials → get_material materials name = some v)
    ∧ ((∀ v, (name, v) ∉ meshes) → get_mesh meshes name = none)
    ∧ (∀ v, (name, v) ∈ meshes → get_mesh meshes name = some v) :=
  ⟨fun h => mapFind_eq_none materials name h,
    fun v hv => mapFind_eq_some materials name v hmat hv,
    fun h => mapFind_eq_none meshes name h,
    fun v hv => mapFind_eq_some meshes name v hmesh hv⟩

/-- C9 witness: registries holding "defaultmesh" and "triangle"; the key "missing"
is absent from both. -/
theorem registry_lookup_sentinel_witness :
    ((([("defaultmesh", Material.mk 1 2)] : List (String × Material)).map Prod.fst).Nodup
      ∧ (([("triangle", Mesh.mk 3 4)] : List (String × Mesh)).map Prod.fst).Nodup)
    ∧ (((∀ v, ("missing", v) ∉ ([("defaultmesh", Material.mk 1 2)] : List (String × Material))) →
          get_material [("defaultmesh", Material.mk 1 2)] "missing" = none)
      ∧ (∀ v, ("missing", v) ∈ ([("defaultmesh", Material.mk 1 2)] : List (String × Material)) →
          get_material [("defaultmesh", Material.mk 1 2)] "missing" = some v)
      ∧ ((∀ v, ("missing", v) ∉ ([("triangle", Mesh.mk 3 4)] : List (String × Mesh))) →
          get_mesh [("triangle", Mesh.mk 3 4)] "missing" = none)
      ∧ (∀ v, ("missing", v) ∈ ([("triangle", Mesh.mk 3 4)] : List (String × Mesh)) →
          get_mesh [("triangle", Mesh.mk 3 4)] "missing" = some v)) :=
  ⟨⟨by decide, by decide⟩,
    registry_lookup_sentinel [("defaultmesh", Material.mk 1 2)]
      [("triangle", Mesh.mk 3 4)] "missing" (by decide) (by decide)⟩

/- ## Command recording in draw_objects (vk_engine.cpp lines 802-898) -/

/-- A `RenderObject` (vk_engine.h lines 59-65) for the recording loop: `mesh` and
`material` are the pointer identities of the referenced `Mesh*` and `Material*`.
The transform matrix does not influence which commands are emitted, so it is
omitted from the state the loop branches on. -/
structure RenderObject where
  mesh : Nat
  material : Nat
deriving DecidableEq

/-- Commands recorded into the command buffer by the `draw_objects` loop. -/
inductive VkCmd where
  | bindPipeline (material : Nat)
  | bindGlobalDescriptorSet (material : Nat) (dynamicOffset : Nat)
  | bindObjectDescriptorSet (material : Nat)
  | pushConstants (material : Nat)
  | bindVertexBuffers (mesh : Nat)
  | draw (vertexCount instanceCount firstVertex firstInstance : Nat)
deriving DecidableEq

/-- The per-object loop of `draw_objects` (vk_engine.cpp lines 854-897).
`meshVertices m` models `m->_vertices.size()`; `uo` is the uniform dynamic offset;
`lastMesh` and `lastMaterial` are the two `nullptr`-initialized state pointers
(`none` = `nullptr`); `i` is the loop index.  Per iteration: pipeline and
descriptor-set binds only when the material differs from the last one, push
constants always, a vertex-buffer bind only when the mesh differs from the last
one, then one `vkCmdDraw(cmd, vertices.size(), 1, 0, i)`. -/
def draw_objects_loop (meshVertices : Nat → Nat) (uo : Nat) :
    List RenderObject → Option Nat → Option Nat → Nat → List VkCmd
  | [], _, _, _ => []
  | object :: rest, lastMesh, lastMaterial, i =>
    (if some object.material ≠ lastMaterial then
      [VkCmd.bindPipeline object.material,
        VkCmd.bindGlobalDescriptorSet object.material uo,
        VkCmd.bindObjectDescriptorSet object.material]
    else [])
    ++ [VkCmd.pushConstants object.material]
    ++ (if some object.mesh ≠ lastMesh then [VkCmd.bindVertexBuffers object.mesh] else [])
    ++ [VkCmd.draw (meshVertices object.mesh) 1 0 i]
    ++ draw_objects_loop meshVertices uo rest
        (if some object.mesh ≠ lastMesh then some object.mesh else lastMesh)
        (if some object.material ≠ lastMaterial then some object.material else lastMaterial)
        (i + 1)

/-- `VulkanEngine::draw_objects` command recording, starting from null last
mesh/material and loop index 0. -/
def draw_objects (meshVertices : Nat → Nat) (uo : Nat) (objects : List RenderObject) :
    List VkCmd :=
  draw_objects_loop meshVertices uo objects none none 0

def isBindPipeline : VkCmd → Bool
  | VkCmd.bindPipeline _ => true
  | _ => false

def isBindVertexBuffers : VkCmd → Bool
  | VkCmd.bindVertexBuffers _ => true
  | _ => false

def isDraw : VkCmd → Bool
  | VkCmd.draw _ _ _ _ => true
  | _ => false

/-- Number of positions of a list whose value differs from the previous one, the
value before the first element being `last`. -/
def changesFrom (last : Option Nat) : List Nat → Nat
  | [] => 0
  | a :: rest => (if some a = last then 0 else 1) + changesFrom (some a) rest

/-- Number of maximal contiguous runs of equal values in a list. -/
def runCount (l : List Nat) : Nat :=
  changesFrom none l

theorem isBindPipeline_eval_bindPipeline (m : Nat) :
    isBindPipeline (VkCmd.bindPipeline m) = true := rfl

theorem isBindPipeline_eval_bindGlobal (m uo : Nat) :
    isBindPipeline (VkCmd.bindGlobalDescriptorSet m uo) = false := rfl

theorem isBindPipeline_eval_bindObject (m : Nat) :
    isBindPipeline (VkCmd.bindObjectDescriptorSet m) = false := rfl

theorem isBindPipeline_eval_push (m : Nat) :
    isBindPipeline (VkCmd.pushConstants m) = false := rfl

theorem isBindPipeline_eval_bindVertexBuffers (m : Nat) :
    isBindPipeline (VkCmd.bindVertexBuffers m) = false := rfl

theorem isBindPipeline_eval_draw (a b c d : Nat) :
    isBindPipeline (VkCmd.draw a b c d) = false := rfl

theorem isBindVertexBuffers_eval_bindPipeline (m : Nat) :
    isBindVertexBuffers (VkCmd.bindPipeline m) = false := rfl

theorem isBindVertexBuffers_eval_bindGlobal (m uo : Nat) :
    isBindVertexBuffers (VkCmd.bindGlobalDescriptorSet m uo) = false := rfl

theorem isBindVertexBuffers_eval_bindObject (m : Nat) :
    isBindVertexBuffers (VkCmd.bindObjectDescriptorSet m) = false := rfl

theorem isBindVertexBuffers_eval_push (m : Nat) :
    isBindVertexBuffers (VkCmd.pushConstants m) = false := rfl

theorem isBindVertexBuffers_eval_bindVertexBuffers (m : Nat) :
    isBindVertexBuffers (VkCmd.bindVertexBuffers m) = true := rfl

theorem isBindVertexBuffers_eval_draw (a b c d : Nat) :
    isBindVertexBuffers (VkCmd.draw a b c d) = false := rfl

theorem isDraw_eval_bindPipeline (m : Nat) :
    isDraw (VkCmd.bindPipeline m) = false := rfl

theorem isDraw_eval_bindGlobal (m uo : Nat) :
    isDraw (VkCmd.bindGlobalDescriptorSet m uo) = false := rfl

theorem isDraw_eval_bindObject (m : Nat) :
    isDraw (VkCmd.bindObjectDescriptorSet m) = false := rfl

theorem isDraw_eval_push (m : Nat) :
    isDraw (VkCmd.pushConstants m) = false := rfl

theorem isDraw_eval_bindVertexBuffers (m : Nat) :
    isDraw (VkCmd.bindVertexBuffers m) = false := rfl

theorem isDraw_eval_draw (a b c d : Nat) :
    isDraw (VkCmd.draw a b c d) = true := rfl

theorem loop_count_bindPipeline (mv : Nat → Nat) (uo : Nat)
    (objects : List RenderObject) :
    ∀ (lm lmat : Option Nat) (i : Nat),
      (draw_objects_loop mv uo objects lm lmat i).countP (fun c => isBindPipeline c)
        = changesFrom lmat (objects.map RenderObject.material) := by
  induction objects with
  | nil =>
    intro lm lmat i
    simp [draw_objects_loop, changesFrom]
  | cons o rest ih =>
    intro lm lmat i
    by_cases h1 : some o.material = lmat
      <;> by_cases h2 : some o.mesh = lm
      <;> simp [draw_objects_loop, List.countP_append, List.countP_cons, h1, h2, ih,
        changesFrom, isBindPipeline_eval_bindPipeline, isBindPipeline_eval_bindGlobal,
        isBindPipeline_eval_bindObject, isBindPipeline_eval_push,
        isBindPipeline_eval_bindVertexBuffers, isBindPipeline_eval_draw, Nat.add_comm]

theorem loop_count_bindVertexBuffers (mv : Nat → Nat) (uo : Nat)
    (objects : List RenderObject) :
    ∀ (lm lmat : Option Nat) (i : Nat),
      (draw_objects_loop mv uo objects lm lmat i).countP (fun c => isBindVertexBuffers c)
        = changesFrom lm (objects.map RenderObject.mesh) := by
  induction objects with
  | nil =>
    intro lm lmat i
    simp [draw_objects_loop, changesFrom]
  | cons o rest ih =>
    intro lm lmat i
    by_cases h1 : some o.material = lmat
      <;> by_cases h2 : some o.mesh = lm
      <;> simp [draw_objects_loop, List.countP_append, List.countP_cons, h1, h2, ih,
        changesFrom, isBindVertexBuffers_eval_bindPipeline, isBindVertexBuffers_eval_bindGlobal,
        isBindVertexBuffers_eval_bindObject, isBindVertexBuffers_eval_push,
        isBindVertexBuffers_eval_bindVertexBuffers, isBindVertexBuffers_eval_draw, Nat.add_comm]

/-- Reference list of draw commands: one per object, in order, indices from `i`. -/
def drawList (mv : Nat → Nat) (i : Nat) : List RenderObject → List VkCmd
  | [] => []
  | o :: rest => VkCmd.draw (mv o.mesh) 1 0 i :: drawList mv (i + 1) rest

theorem loop_filter_isDraw (mv : Nat → Nat) (uo : Nat) (objects : List RenderObject) :
    ∀ (lm lmat : Option Nat) (i : Nat),
      (draw_objects_loop mv uo objects lm lmat i).filter (fun c => isDraw c)
        = drawList mv i objects := by
  induction objects with
  | nil =>
    intro lm lmat i
    simp [draw_objects_loop, drawList]
  | cons o rest ih =>
    intro lm lmat i
    by_cases h1 : some o.material = lmat
      <;> by_cases h2 : some o.mesh = lm
      <;> simp [draw_objects_loop, List.filter_append, List.filter_cons, h1, h2, ih,
        drawList, isDraw_eval_bindPipeline, isDraw_eval_bindGlobal, isDraw_eval_bindObject,
        isDraw_eval_push, isDraw_eval_bindVertexBuffers, isDraw_eval_draw]

theorem drawList_length (mv : Nat → Nat) :
    ∀ (objects : List RenderObject) (i : Nat),
      (drawList mv i objects).length = objects.length := by
  intro objects
  induction objects with
  | nil => intro i; rfl
  | cons o rest ih =>
    intro i
    simp [drawList, ih]

theorem drawList_getElem (mv : Nat → Nat) :
    ∀ (objects : List RenderObject) (i j : Nat) (hj : j < objects.length),
      (drawList mv i objects)[j]? = some (VkCmd.draw (mv (objects.get ⟨j, hj⟩).mesh) 1 0 (i + j)) := by
  intro objects
  induction objects with
  | nil =>
    intro i j hj
    simp at hj
  | cons o rest ih =>
    intro i j hj
    cases j with
    | zero =>
      simp [drawList]
    | succ j2 =>
      have hj2 : j2 < rest.length := by simpa using hj
      have harith : i + (j2 + 1) = i + 1 + j2 := by omega
      simp only [drawList, List.getElem?_cons_succ, List.get_cons_succ, harith]
      exact ih (i + 1) j2 hj2

/-- The render-object list is sorted by material identity, then mesh identity. -/
def sortedByMaterialThenMesh (objects : List RenderObject) : Prop :=
  List.Chain' (fun o1 o2 => o1.material < o2.material
    ∨ (o1.material = o2.material ∧ o1.mesh ≤ o2.mesh)) objects

/-- C4: for a render-object list sorted by material then mesh, one `draw_objects`
call records exactly one pipeline bind per maximal contiguous run of objects
sharing a material, exactly one vertex-buffer bind per maximal contiguous run of
objects sharing a mesh, and exactly one draw call per object — the j-th draw uses
the j-th object's mesh vertex count, instance count 1, first vertex 0, and
firstInstance j. -/
theorem draw_objects_state_change_minimization (mv : Nat → Nat) (uo : Nat)
    (objects : List RenderObject) (hsorted : sortedByMaterialThenMesh objects) :
    (draw_objects mv uo objects).countP (fun c => isBindPipeline c)
        = runCount (objects.map RenderObject.material)
    ∧ (draw_objects mv uo objects).countP (fun c => isBindVertexBuffers c)
        = runCount (objects.map RenderObject.mesh)
    ∧ ((draw_objects mv uo objects).filter fun c => isDraw c).length = objects.length
    ∧ ∀ j, (hj : j < objects.length) →
        ((draw_objects mv uo objects).filter fun c => isDraw c)[j]?
          = some (VkCmd.draw (mv (objects.get ⟨j, hj⟩).mesh) 1 0 j) := by
  refine ⟨?_, ?_, ?_, ?_⟩
  · exact loop_count_bindPipeline mv uo objects none none 0
  · exact loop_count_bindVertexBuffers mv uo objects none none 0
  · rw [draw_objects, loop_filter_isDraw mv uo objects none none 0]
    exact drawList_length mv objects 0
  · intro j hj
    rw [draw_objects, loop_filter_isDraw mv uo objects none none 0]
    have := drawList_getElem mv objects 0 j hj
    simpa using this

/-- C4 witness: four objects sorted by material then mesh — materials 1,1,1,2
(two runs), meshes 1,1,2,2 (two runs). -/
theorem draw_objects_state_change_minimization_witness :
    sortedByMaterialThenMesh
        [RenderObject.mk 1 1, RenderObject.mk 1 1, RenderObject.mk 2 1, RenderObject.mk 2 2]
    ∧ ((draw_objects (fun _ => 3) 0
          [RenderObject.mk 1 1, RenderObject.mk 1 1, RenderObject.mk 2 1,
            RenderObject.mk 2 2]).countP (fun c => isBindPipeline c)
        = runCount ([RenderObject.mk 1 1, RenderObject.mk 1 1, RenderObject.mk 2 1,
            RenderObject.mk 2 2].map RenderObject.material)
      ∧ (draw_objects (fun _ => 3) 0
          [RenderObject.mk 1 1, RenderObject.mk 1 1, RenderObject.mk 2 1,
            RenderObject.mk 2 2]).countP (fun c => isBindVertexBuffers c)
        = runCount ([RenderObject.mk 1 1, RenderObject.mk 1 1, RenderObject.mk 2 1,
            RenderObject.mk 2 2].map RenderObject.mesh)
      ∧ ((draw_objects (fun _ => 3) 0
          [RenderObject.mk 1 1, RenderObject.mk 1 1, RenderObject.mk 2 1,
            RenderObject.mk 2 2]).filter fun c => isDraw c).length
        = ([RenderObject.mk 1 1, RenderObject.mk 1 1, RenderObject.mk 2 1,
            RenderObject.mk 2 2] : List RenderObject).length
      ∧ ∀ j, (hj : j < ([RenderObject.mk 1 1, RenderObject.mk 1 1, RenderObject.mk 2 1,
            RenderObject.mk 2 2] : List RenderObject).length) →
          ((draw_objects (fun _ => 3) 0
            [RenderObject.mk 1 1, RenderObject.mk 1 1, RenderObject.mk 2 1,
              RenderObject.mk 2 2]).filter fun c => isDraw c)[j]?
            = some (VkCmd.draw ((fun _ => 3)
                (([RenderObject.mk 1 1, RenderObject.mk 1 1, RenderObject.mk 2 1,
                  RenderObject.mk 2 2] : List RenderObject).get ⟨j, hj⟩).mesh) 1 0 j)) := by
  have hs : sortedByMaterialThenMesh
      [RenderObject.mk 1 1, RenderObject.mk 1 1, RenderObject.mk 2 1, RenderObject.mk 2 2] := by
    simp [sortedByMaterialThenMesh, List.chain'_cons]
  exact ⟨hs, draw_objects_state_change_minimization (fun _ => 3) 0 _ hs⟩
